import Mathlib

/-!
Verification of the connection-resilience state machine of
`src/extension/ollama/vscode-node/ollamaConnectionManager.ts`
(`OllamaConnectionManager`), embedded shallowly in Lean.

The supervisor owns a mutable `ConnectionState` record, a reconnect
timer handle and a health-check interval.  Network calls are modelled
by outcome parameters (`ConnectOutcome`, `HealthOutcome`,
`SwitchOutcome`): each Lean operation takes the outcome the `fetch`
would have produced and mirrors the source's control flow on it.
`setTimeout`/`clearTimeout` are modelled by a list of live timers
`(id, delay)` plus the `reconnectTimer` handle field holding the id of
the most recently created timer, exactly as the source keeps only the
latest handle.  Timestamps (`Date.now()`) are `Nat` parameters.
-/

set_option autoImplicit false

namespace Ollama

/-- `ConnectionStatus` from ollamaConnectionManager.ts. -/
inductive ConnectionStatus
  | connected
  | disconnected
  | reconnecting
  | starting
deriving DecidableEq, Repr

/-- `ConnectionState` from ollamaConnectionManager.ts.  `Date` timestamps
are modelled as `Nat` milliseconds. -/
structure ConnectionState where
  status : ConnectionStatus
  lastError : Option String
  reconnectAttempts : Nat
  lastSuccessfulConnection : Option Nat
  currentModel : Option String
  availableModels : List String
  latency : Option Nat
deriving DecidableEq, Repr

/-- `MAX_RECONNECT_ATTEMPTS = 10`. -/
def MAX_RECONNECT_ATTEMPTS : Nat := 10

/-- `INITIAL_RECONNECT_DELAY = 1000` (1 second). -/
def INITIAL_RECONNECT_DELAY : Nat := 1000

/-- `MAX_RECONNECT_DELAY = 30000` (30 seconds). -/
def MAX_RECONNECT_DELAY : Nat := 30000

/-- The fields of `OllamaConnectionManager` relevant to the state
machine: the `state` record, the pending reconnect timers (in JS a
`setTimeout` creates a live timer; we track every live reconnect timer
as an `(id, delay)` pair), the `reconnectTimer` handle (id of the most
recently created reconnect timer, never reset to `none` by the source),
a fresh-id counter for timer handles, and `ollamaEndpoint`. -/
structure Supervisor where
  state : ConnectionState
  pendingTimers : List (Nat × Nat)
  reconnectTimer : Option Nat
  nextTimerId : Nat
  ollamaEndpoint : String
deriving DecidableEq, Repr

/-- The initial field value of `this.state`:
`{ status: Disconnected, reconnectAttempts: 0, availableModels: [] }`. -/
def initialSupervisor (endpoint : String) : Supervisor :=
  { state := { status := ConnectionStatus.disconnected
               lastError := none
               reconnectAttempts := 0
               lastSuccessfulConnection := none
               currentModel := none
               availableModels := []
               latency := none }
    pendingTimers := []
    reconnectTimer := none
    nextTimerId := 0
    ollamaEndpoint := endpoint }

/-- `updateStatus(status, error?)`: reassigns `this.state` to a spread
copy with the new `status` and `lastError` (an omitted `error` argument
stores `undefined`, i.e. `none`), then fires `_onStatusChanged` with
`this.state`.  Returns the new supervisor and the fired payload. -/
def updateStatus (s : Supervisor) (status : ConnectionStatus)
    (error : Option String) : Supervisor × ConnectionState :=
  let st := { s.state with status := status, lastError := error }
  ({ s with state := st }, st)

/-- The backoff expression of `scheduleReconnect`:
`Math.min(INITIAL_RECONNECT_DELAY * Math.pow(2, this.state.reconnectAttempts), MAX_RECONNECT_DELAY)`,
evaluated at the counter value *before* the `reconnectAttempts++`. -/
def backoffDelay (reconnectAttempts : Nat) : Nat :=
  min (INITIAL_RECONNECT_DELAY * 2 ^ reconnectAttempts) MAX_RECONNECT_DELAY

/-- The message passed to `updateStatus` by `scheduleReconnect`:
`Reconnecting in (delay / 1000)s...`. -/
def reconnectingMessage (delay : Nat) : String :=
  "Reconnecting in " ++ toString (delay / 1000) ++ "s..."

/-- `if (this.reconnectTimer) clearTimeout(this.reconnectTimer)`:
cancels the live timer named by the handle, if any.  The handle field
itself is left as the source leaves it. -/
def clearReconnectTimer (s : Supervisor) : Supervisor :=
  match s.reconnectTimer with
  | none => s
  | some h => { s with pendingTimers := s.pendingTimers.filter (fun t => t.1 ≠ h) }

/-- Result of `scheduleReconnect`: the new supervisor, the status events
fired, the delay of the timer created (if one was), and whether the
max-attempts error prompt was shown. -/
structure SchedResult where
  sup : Supervisor
  events : List ConnectionState
  scheduledDelay : Option Nat
  ceilingPrompt : Bool
deriving Repr

/-- `scheduleReconnect()` from ollamaConnectionManager.ts.  If the
counter has reached `MAX_RECONNECT_ATTEMPTS` it only shows the error
prompt (the `Retry` / `Open Settings` choices are separate user events,
see `retryChoice`).  Otherwise it computes the backoff delay from the
counter before increment, increments the counter, fires a
`Reconnecting` status, cancels the previously tracked timer and creates
a new one. -/
def scheduleReconnect (s : Supervisor) : SchedResult :=
  if s.state.reconnectAttempts ≥ MAX_RECONNECT_ATTEMPTS then
    { sup := s, events := [], scheduledDelay := none, ceilingPrompt := true }
  else
    let delay := backoffDelay s.state.reconnectAttempts
    let s1 := { s with state := { s.state with reconnectAttempts := s.state.reconnectAttempts + 1 } }
    let p := updateStatus s1 ConnectionStatus.reconnecting (some (reconnectingMessage delay))
    let s3 := clearReconnectTimer p.1
    let s4 := { s3 with pendingTimers := s3.pendingTimers ++ [(s3.nextTimerId, delay)]
                        reconnectTimer := some s3.nextTimerId
                        nextTimerId := s3.nextTimerId + 1 }
    { sup := s4, events := [p.2], scheduledDelay := some delay, ceilingPrompt := false }

/-- Outcome of the network interaction of one `connect()` call:
either the version probe failed and `startOllama()` also failed, or the
`/api/tags` fetch threw / returned non-OK (the thrown message lands in
the `catch`), or it succeeded with a model list, a measured latency and
the current time. -/
inductive ConnectOutcome
  | startFailed
  | fetchFailed (msg : String)
  | success (models : List String) (latency : Nat) (now : Nat)
deriving DecidableEq, Repr

/-- Result of `connect()`: the new supervisor, the status events fired,
the reconnect delay scheduled (if any), whether the ceiling prompt was
shown, whether the `'Ollama reconnected successfully!'` message was
shown, and the returned boolean. -/
structure ConnectResult where
  sup : Supervisor
  events : List ConnectionState
  scheduledDelay : Option Nat
  ceilingPrompt : Bool
  reconnectedNotice : Bool
  ok : Bool
deriving Repr

/-- `connect()` from ollamaConnectionManager.ts, with the network
outcome as a parameter.  Mirrors the source: `updateStatus(Starting)`;
on failure `updateStatus(Disconnected, msg)` then `scheduleReconnect()`
and return `false`; on success reassign `this.state` with
`Connected`, `reconnectAttempts: 0`, the fetched model names, the
latency and `lastError: undefined`, fire the status event, and show the
reconnected notice only `if (this.state.reconnectAttempts > 0)` —
a test of the freshly reassigned record. -/
def connect (s : Supervisor) (o : ConnectOutcome) : ConnectResult :=
  let p1 := updateStatus s ConnectionStatus.starting none
  match o with
  | ConnectOutcome.startFailed =>
    let p2 := updateStatus p1.1 ConnectionStatus.disconnected
        (some "Ollama is not installed or cannot be started")
    let r := scheduleReconnect p2.1
    { sup := r.sup, events := p1.2 :: p2.2 :: r.events
      scheduledDelay := r.scheduledDelay, ceilingPrompt := r.ceilingPrompt
      reconnectedNotice := false, ok := false }
  | ConnectOutcome.fetchFailed msg =>
    let p2 := updateStatus p1.1 ConnectionStatus.disconnected (some msg)
    let r := scheduleReconnect p2.1
    { sup := r.sup, events := p1.2 :: p2.2 :: r.events
      scheduledDelay := r.scheduledDelay, ceilingPrompt := r.ceilingPrompt
      reconnectedNotice := false, ok := false }
  | ConnectOutcome.success models latency now =>
    let st := { p1.1.state with
                status := ConnectionStatus.connected
                reconnectAttempts := 0
                lastSuccessfulConnection := some now
                availableModels := models
                latency := some latency
                lastError := none }
    let s2 := { p1.1 with state := st }
    { sup := s2, events := [p1.2, st]
      scheduledDelay := none, ceilingPrompt := false
      reconnectedNotice := if st.reconnectAttempts > 0 then true else false
      ok := true }

/-- Outcome of one health probe (`GET /api/version` inside the
10-second interval callback). -/
inductive HealthOutcome
  | ok (latency : Nat)
  | fail (msg : String)
deriving DecidableEq, Repr

/-- Result of one tick of the `startHealthMonitoring` interval. -/
structure HealthResult where
  sup : Supervisor
  events : List ConnectionState
  scheduledDelay : Option Nat
  ceilingPrompt : Bool
deriving Repr

/-- One tick of the interval installed by `startHealthMonitoring()`:
only acts `if (this.state.status === Connected)`.  A successful probe
assigns `this.state.latency` in place (no event fired); a failure calls
`updateStatus(Disconnected, 'Connection lost')` then
`scheduleReconnect()`. -/
def healthCheckTick (s : Supervisor) (o : HealthOutcome) : HealthResult :=
  if s.state.status = ConnectionStatus.connected then
    match o with
    | HealthOutcome.ok latency =>
      { sup := { s with state := { s.state with latency := some latency } }
        events := [], scheduledDelay := none, ceilingPrompt := false }
    | HealthOutcome.fail _ =>
      let p := updateStatus s ConnectionStatus.disconnected (some "Connection lost")
      let r := scheduleReconnect p.1
      { sup := r.sup, events := p.2 :: r.events
        scheduledDelay := r.scheduledDelay, ceilingPrompt := r.ceilingPrompt }
  else
    { sup := s, events := [], scheduledDelay := none, ceilingPrompt := false }

/-- Outcome of the `/api/generate` validation request of `switchModel`
(non-OK statuses are thrown and caught, so they coincide with network
errors in the `catch`). -/
inductive SwitchOutcome
  | ok
  | failed (msg : String)
deriving DecidableEq, Repr

/-- Result of `switchModel`: the new supervisor, whether any network
request was issued, the `_onModelChanged` payloads fired, whether a
user-visible error / info message was shown, and the returned boolean. -/
structure SwitchResult where
  sup : Supervisor
  networkCalled : Bool
  modelEvents : List String
  errorShown : Bool
  infoShown : Bool
  ok : Bool
deriving Repr

/-- `switchModel(modelName)` from ollamaConnectionManager.ts: fails
fast with a user-visible error (and no fetch) when not connected or
when the name is not in `availableModels`; otherwise issues the
validation request; on success assigns `this.state.currentModel` in
place and fires `_onModelChanged`; on failure shows the error and
leaves the state untouched. -/
def switchModel (s : Supervisor) (modelName : String) (o : SwitchOutcome) : SwitchResult :=
  if s.state.status ≠ ConnectionStatus.connected then
    { sup := s, networkCalled := false, modelEvents := []
      errorShown := true, infoShown := false, ok := false }
  else if modelName ∉ s.state.availableModels then
    { sup := s, networkCalled := false, modelEvents := []
      errorShown := true, infoShown := false, ok := false }
  else
    match o with
    | SwitchOutcome.ok =>
      { sup := { s with state := { s.state with currentModel := some modelName } }
        networkCalled := true, modelEvents := [modelName]
        errorShown := false, infoShown := true, ok := true }
    | SwitchOutcome.failed _ =>
      { sup := s, networkCalled := true, modelEvents := []
        errorShown := true, infoShown := false, ok := false }

/-- `reconnect()` from ollamaConnectionManager.ts: zeroes
`this.state.reconnectAttempts` in place, cancels the tracked reconnect
timer, and delegates to `connect()`. -/
def reconnect (s : Supervisor) (o : ConnectOutcome) : ConnectResult :=
  let s1 := { s with state := { s.state with reconnectAttempts := 0 } }
  let s2 := clearReconnectTimer s1
  connect s2 o

/-- `updateEndpoint(endpoint)`: replaces `this.ollamaEndpoint` and
calls `reconnect()`. -/
def updateEndpoint (s : Supervisor) (endpoint : String) (o : ConnectOutcome) : ConnectResult :=
  reconnect { s with ollamaEndpoint := endpoint } o

/-- A pending reconnect timer fires: the timer (if still live) is
consumed and its callback runs `this.connect()`.  Firing an id that is
not live (already cancelled) is a no-op. -/
def timerFire (s : Supervisor) (id : Nat) (o : ConnectOutcome) : ConnectResult :=
  if s.pendingTimers.any (fun t => t.1 = id) then
    connect { s with pendingTimers := s.pendingTimers.filter (fun t => t.1 ≠ id) } o
  else
    { sup := s, events := [], scheduledDelay := none, ceilingPrompt := false
      reconnectedNotice := false, ok := false }

/-- The user picks `Retry` on the max-attempts prompt:
`this.state.reconnectAttempts = 0; this.connect();`. -/
def retryChoice (s : Supervisor) (o : ConnectOutcome) : ConnectResult :=
  connect { s with state := { s.state with reconnectAttempts := 0 } } o

/-- The external events that can drive the supervisor: the public
operations, a reconnect-timer expiry, a health-check interval tick, and
the `Retry` choice on the ceiling prompt. -/
inductive Event
  | connectCall (o : ConnectOutcome)
  | timerFired (id : Nat) (o : ConnectOutcome)
  | healthTick (o : HealthOutcome)
  | switchModelCall (name : String) (o : SwitchOutcome)
  | reconnectCall (o : ConnectOutcome)
  | updateEndpointCall (url : String) (o : ConnectOutcome)
  | retryChoiceMade (o : ConnectOutcome)
deriving Repr

/-- One supervisor step together with the status events it fires. -/
def stepEvents (s : Supervisor) : Event → Supervisor × List ConnectionState
  | Event.connectCall o => ((connect s o).sup, (connect s o).events)
  | Event.timerFired id o => ((timerFire s id o).sup, (timerFire s id o).events)
  | Event.healthTick o => ((healthCheckTick s o).sup, (healthCheckTick s o).events)
  | Event.switchModelCall n o => ((switchModel s n o).sup, [])
  | Event.reconnectCall o => ((reconnect s o).sup, (reconnect s o).events)
  | Event.updateEndpointCall u o => ((updateEndpoint s u o).sup, (updateEndpoint s u o).events)
  | Event.retryChoiceMade o => ((retryChoice s o).sup, (retryChoice s o).events)

/-- The state part of one supervisor step. -/
def step (s : Supervisor) (e : Event) : Supervisor :=
  (stepEvents s e).1

/-- The reconnect delay scheduled by one supervisor step, if any. -/
def stepDelay (s : Supervisor) : Event → Option Nat
  | Event.connectCall o => (connect s o).scheduledDelay
  | Event.timerFired id o => (timerFire s id o).scheduledDelay
  | Event.healthTick o => (healthCheckTick s o).scheduledDelay
  | Event.switchModelCall _ _ => none
  | Event.reconnectCall o => (reconnect s o).scheduledDelay
  | Event.updateEndpointCall u o => (updateEndpoint s u o).scheduledDelay
  | Event.retryChoiceMade o => (retryChoice s o).scheduledDelay

/-- The supervisor states reachable from extension activation by any
sequence of events. -/
inductive Reachable : Supervisor → Prop
  | init (endpoint : String) : Reachable (initialSupervisor endpoint)
  | next (s : Supervisor) (e : Event) : Reachable s → Reachable (step s e)

/-- Run a sequence of events, collecting the fired status events and
the scheduled reconnect delays. -/
def runTrace (s : Supervisor) : List Event → Supervisor × List ConnectionState × List Nat
  | [] => (s, [], [])
  | e :: es =>
    let p := stepEvents s e
    let d := stepDelay s e
    let r := runTrace p.1 es
    (r.1, p.2 ++ r.2.1, d.toList ++ r.2.2)

/-- The (status, reconnectAttempts) projection of a fired status event. -/
def proj (c : ConnectionState) : ConnectionStatus × Nat := (c.status, c.reconnectAttempts)

/-- The endpoint-unreachable-from-startup scenario: the initial
`connect()` fails, and each scheduled reconnect timer (ids are created
in order 0, 1, ...) fires and fails in turn, until the ceiling stops
the scheduling. -/
def unreachableScenario : List Event :=
  Event.connectCall (ConnectOutcome.fetchFailed "fetch failed") ::
  (List.range 10).map (fun i => Event.timerFired i (ConnectOutcome.fetchFailed "fetch failed"))

/-!
## JS reference semantics of `getState()`

`getState()` returns `{ ...this.state }`: a spread copy.  In
JavaScript a spread copies the *values* of the fields, and the value of
an array-typed field is a reference into the heap.  To state claims
about observer-side mutation we model exactly this: the
`availableModels` field of the record holds an address into a heap of
string arrays, and an observer mutating the array reached through the
returned snapshot writes to that heap. -/

/-- Heap of JS string arrays, addressed by index. -/
def ModelHeap : Type := List (List String)

/-- `this.state` as stored in JS memory: scalar fields are immediate
values, the `availableModels` array field is a heap reference. -/
structure JSConnectionState where
  status : ConnectionStatus
  lastError : Option String
  reconnectAttempts : Nat
  currentModel : Option String
  availableModels : Nat
deriving DecidableEq, Repr

/-- `getState()` from ollamaConnectionManager.ts:
`return { ...this.state }` — each field's value is copied, so the
array reference in `availableModels` is copied as the same address. -/
def getState (st : JSConnectionState) : JSConnectionState :=
  { status := st.status
    lastError := st.lastError
    reconnectAttempts := st.reconnectAttempts
    currentModel := st.currentModel
    availableModels := st.availableModels }

/-- Dereference an array field: the contents of the heap cell. -/
def readModels (h : ModelHeap) (ref : Nat) : List String :=
  h.getD ref []

/-- An observer performing `snapshot.availableModels.push(m)`:
in-place mutation of the heap cell the reference points to. -/
def pushModel (h : ModelHeap) (ref : Nat) (m : String) : ModelHeap :=
  h.set ref (h.getD ref [] ++ [m])

/-!
## Helper lemmas
-/

@[simp]
lemma clearReconnectTimer_state (s : Supervisor) :
    (clearReconnectTimer s).state = s.state := by
  unfold clearReconnectTimer; split <;> rfl

@[simp]
lemma clearReconnectTimer_reconnectTimer (s : Supervisor) :
    (clearReconnectTimer s).reconnectTimer = s.reconnectTimer := by
  unfold clearReconnectTimer; split <;> rfl

@[simp]
lemma clearReconnectTimer_nextTimerId (s : Supervisor) :
    (clearReconnectTimer s).nextTimerId = s.nextTimerId := by
  unfold clearReconnectTimer; split <;> rfl

/-- The two possible shapes of a `scheduleReconnect` call: the ceiling
branch leaves the supervisor untouched, the scheduling branch computes
the backoff delay from the pre-increment counter. -/
lemma scheduleReconnect_spec (s : Supervisor) :
    (MAX_RECONNECT_ATTEMPTS ≤ s.state.reconnectAttempts ∧
      (scheduleReconnect s).sup = s ∧
      (scheduleReconnect s).scheduledDelay = none ∧
      (scheduleReconnect s).ceilingPrompt = true) ∨
    (s.state.reconnectAttempts < MAX_RECONNECT_ATTEMPTS ∧
      (scheduleReconnect s).sup.state.status = ConnectionStatus.reconnecting ∧
      (scheduleReconnect s).sup.state.reconnectAttempts = s.state.reconnectAttempts + 1 ∧
      (scheduleReconnect s).scheduledDelay = some (backoffDelay s.state.reconnectAttempts) ∧
      (scheduleReconnect s).ceilingPrompt = false) := by
  unfold scheduleReconnect
  split
  · exact Or.inl ⟨by omega, rfl, rfl, rfl⟩
  · exact Or.inr ⟨by omega, by simp [updateStatus], by simp [updateStatus], rfl, rfl⟩

/-- `scheduleReconnect` never touches the model list, the current
model, the last-success timestamp or the latency. -/
lemma scheduleReconnect_frame (s : Supervisor) :
    (scheduleReconnect s).sup.state.currentModel = s.state.currentModel ∧
    (scheduleReconnect s).sup.state.availableModels = s.state.availableModels ∧
    (scheduleReconnect s).sup.state.lastSuccessfulConnection = s.state.lastSuccessfulConnection ∧
    (scheduleReconnect s).sup.state.latency = s.state.latency := by
  unfold scheduleReconnect
  split
  · exact ⟨rfl, rfl, rfl, rfl⟩
  · simp [updateStatus]

/-- The `Connected`-implies-clean invariant of the state record. -/
def ConnInv (s : Supervisor) : Prop :=
  s.state.status = ConnectionStatus.connected →
    s.state.lastError = none ∧ s.state.reconnectAttempts = 0

/-- After `updateStatus(Disconnected, err)` followed by
`scheduleReconnect()` the status is `Disconnected` or `Reconnecting`,
never `Connected`. -/
lemma status_afterDisconnectSchedule (s : Supervisor) (err : Option String) :
    (scheduleReconnect (updateStatus s ConnectionStatus.disconnected err).1).sup.state.status ≠
      ConnectionStatus.connected := by
  intro hc
  rcases scheduleReconnect_spec (updateStatus s ConnectionStatus.disconnected err).1 with
    ⟨_, hsup, _, _⟩ | ⟨_, hst, _, _, _⟩
  · rw [hsup] at hc
    simp [updateStatus] at hc
  · rw [hst] at hc
    exact absurd hc (by simp)

/-- After any `connect()` call the invariant holds outright: the
failure paths end in `Reconnecting` or `Disconnected`, and the success
path writes `lastError: undefined` and `reconnectAttempts: 0`. -/
lemma connInv_connect (s : Supervisor) (o : ConnectOutcome) :
    ConnInv (connect s o).sup := by
  cases o with
  | startFailed =>
    intro hc
    exact absurd hc
      (status_afterDisconnectSchedule (updateStatus s ConnectionStatus.starting none).1
        (some "Ollama is not installed or cannot be started"))
  | fetchFailed msg =>
    intro hc
    exact absurd hc
      (status_afterDisconnectSchedule (updateStatus s ConnectionStatus.starting none).1 (some msg))
  | success models latency now =>
    intro _
    exact ⟨rfl, rfl⟩

/-- `switchModel` preserves status, error and counter. -/
lemma switchModel_preserves (s : Supervisor) (n : String) (o : SwitchOutcome) :
    (switchModel s n o).sup.state.status = s.state.status ∧
    (switchModel s n o).sup.state.lastError = s.state.lastError ∧
    (switchModel s n o).sup.state.reconnectAttempts = s.state.reconnectAttempts ∧
    (switchModel s n o).sup.state.availableModels = s.state.availableModels ∧
    (switchModel s n o).sup.pendingTimers = s.pendingTimers ∧
    (switchModel s n o).sup.reconnectTimer = s.reconnectTimer := by
  unfold switchModel
  split
  · exact ⟨rfl, rfl, rfl, rfl, rfl, rfl⟩
  · split
    · exact ⟨rfl, rfl, rfl, rfl, rfl, rfl⟩
    · cases o <;> exact ⟨rfl, rfl, rfl, rfl, rfl, rfl⟩

/-- Every event preserves the `Connected`-implies-clean invariant. -/
lemma connInv_step (s : Supervisor) (e : Event) (ih : ConnInv s) :
    ConnInv (step s e) := by
  cases e with
  | connectCall o => exact connInv_connect s o
  | timerFired id o =>
    show ConnInv (timerFire s id o).sup
    unfold timerFire
    split
    · exact connInv_connect _ o
    · exact ih
  | healthTick o =>
    show ConnInv (healthCheckTick s o).sup
    unfold healthCheckTick
    split
    · cases o with
      | ok latency =>
        intro hc
        exact ih hc
      | fail msg =>
        intro hc
        exact absurd hc (status_afterDisconnectSchedule s (some "Connection lost"))
    · exact ih
  | switchModelCall n o =>
    show ConnInv (switchModel s n o).sup
    intro hc
    rcases switchModel_preserves s n o with ⟨h1, h2, h3, _⟩
    rw [h1] at hc
    rw [h2, h3]
    exact ih hc
  | reconnectCall o => exact connInv_connect _ o
  | updateEndpointCall u o => exact connInv_connect _ o
  | retryChoiceMade o => exact connInv_connect _ o

/-- Every reachable supervisor satisfies the Connected-implies-clean
invariant. -/
lemma reachable_connInv (s : Supervisor) (hr : Reachable s) : ConnInv s := by
  induction hr with
  | init endpoint =>
    intro hc
    exact absurd hc (by simp [initialSupervisor])
  | next s e _ ih => exact connInv_step s e ih

/-- At most one live reconnect timer, and when one is live it is the
one named by the `reconnectTimer` handle. -/
def TimerInv (s : Supervisor) : Prop :=
  s.pendingTimers = [] ∨
  ∃ h d, s.reconnectTimer = some h ∧ s.pendingTimers = [(h, d)]

/-- Under the invariant, cancelling the tracked timer leaves no live
timer at all. -/
lemma clearReconnectTimer_empties (s : Supervisor) (hs : TimerInv s) :
    (clearReconnectTimer s).pendingTimers = [] := by
  unfold clearReconnectTimer
  rcases hs with h | ⟨hd, dd, hrt, hpt⟩
  · split <;> simp [h]
  · rw [hrt]
    simp [hpt]

/-- Cancelling the tracked timer and then registering one fresh timer
re-establishes the single-timer invariant. -/
lemma timerInv_after_set (s' : Supervisor) (hs' : TimerInv s') (d : Nat) :
    TimerInv { clearReconnectTimer s' with
               pendingTimers := (clearReconnectTimer s').pendingTimers ++
                 [((clearReconnectTimer s').nextTimerId, d)]
               reconnectTimer := some (clearReconnectTimer s').nextTimerId
               nextTimerId := (clearReconnectTimer s').nextTimerId + 1 } := by
  right
  exact ⟨(clearReconnectTimer s').nextTimerId, d, rfl,
    by simp [clearReconnectTimer_empties s' hs']⟩

/-- `scheduleReconnect` preserves the single-timer invariant: it
cancels the tracked timer before creating the replacement. -/
lemma timerInv_scheduleReconnect (s : Supervisor) (hs : TimerInv s) :
    TimerInv (scheduleReconnect s).sup := by
  unfold scheduleReconnect
  split
  · exact hs
  · exact timerInv_after_set
      ((updateStatus
        { s with state := { s.state with reconnectAttempts := s.state.reconnectAttempts + 1 } }
        ConnectionStatus.reconnecting
        (some (reconnectingMessage (backoffDelay s.state.reconnectAttempts)))).1) hs
      (backoffDelay s.state.reconnectAttempts)

/-- `connect` preserves the single-timer invariant. -/
lemma timerInv_connect (s : Supervisor) (o : ConnectOutcome) (hs : TimerInv s) :
    TimerInv (connect s o).sup := by
  cases o with
  | startFailed => exact timerInv_scheduleReconnect _ hs
  | fetchFailed msg => exact timerInv_scheduleReconnect _ hs
  | success models latency now => exact hs

/-- Every event preserves the single-timer invariant. -/
lemma timerInv_step (s : Supervisor) (e : Event) (ih : TimerInv s) :
    TimerInv (step s e) := by
  cases e with
  | connectCall o => exact timerInv_connect s o ih
  | timerFired id o =>
    show TimerInv (timerFire s id o).sup
    unfold timerFire
    split
    · apply timerInv_connect
      rcases ih with h | ⟨hd, dd, hrt, hpt⟩
      · left
        simp [h]
      · by_cases hid : hd = id
        · left
          simp [hpt, hid]
        · right
          exact ⟨hd, dd, hrt, by simp [hpt, hid]⟩
    · exact ih
  | healthTick o =>
    show TimerInv (healthCheckTick s o).sup
    unfold healthCheckTick
    split
    · cases o with
      | ok latency => exact ih
      | fail msg => exact timerInv_scheduleReconnect _ ih
    · exact ih
  | switchModelCall n o =>
    show TimerInv (switchModel s n o).sup
    rcases switchModel_preserves s n o with ⟨_, _, _, _, hp, hr⟩
    rcases ih with h | ⟨hd, dd, hrt, hpt⟩
    · left
      rw [hp, h]
    · right
      exact ⟨hd, dd, by rw [hr, hrt], by rw [hp, hpt]⟩
  | reconnectCall o =>
    show TimerInv (reconnect s o).sup
    unfold reconnect
    apply timerInv_connect
    left
    exact clearReconnectTimer_empties _ ih
  | updateEndpointCall u o =>
    show TimerInv (updateEndpoint s u o).sup
    unfold updateEndpoint reconnect
    apply timerInv_connect
    left
    exact clearReconnectTimer_empties _ ih
  | retryChoiceMade o => exact timerInv_connect _ o ih

/-- Every reachable supervisor satisfies the single-timer invariant. -/
lemma reachable_timerInv (s : Supervisor) (hr : Reachable s) : TimerInv s := by
  induction hr with
  | init endpoint => left; rfl
  | next s e _ ih => exact timerInv_step s e ih

/-- The first status event fired by any `connect()` call is the
`Starting` transition of `updateStatus(Starting)`. -/
lemma connect_first_event (s : Supervisor) (o : ConnectOutcome) :
    (connect s o).events.head? =
      some { s.state with status := ConnectionStatus.starting, lastError := none } := by
  cases o <;> rfl

/-- When the counter is zero, `scheduleReconnect` always creates a
timer with the initial one-second delay. -/
lemma scheduleReconnect_delay_of_zero (s : Supervisor)
    (h : s.state.reconnectAttempts = 0) :
    (scheduleReconnect s).scheduledDelay = some 1000 := by
  rcases scheduleReconnect_spec s with ⟨hge, _, _, _⟩ | ⟨_, _, _, hd, _⟩
  · rw [h] at hge
    exact absurd hge (by decide)
  · rw [hd, h]
    rfl

/-!
## Concrete states used by the witnesses
-/

/-- The supervisor right after a first successful `connect()`. -/
def demoConnected : Supervisor :=
  step (initialSupervisor "http://localhost:11434")
    (Event.connectCall (ConnectOutcome.success ["llama3", "mistral"] 5 0))

/-- A supervisor whose counter records four failed attempts. -/
def demoAttempts4 : Supervisor :=
  { initialSupervisor "http://localhost:11434" with
    state := { (initialSupervisor "http://localhost:11434").state with reconnectAttempts := 4 } }

/-- A supervisor stuck at the reconnect ceiling: `Disconnected`,
counter at the maximum, no live timer. -/
def demoCeiling : Supervisor :=
  { initialSupervisor "http://localhost:11434" with
    state := { (initialSupervisor "http://localhost:11434").state with
               reconnectAttempts := MAX_RECONNECT_ATTEMPTS } }

/-!
## The claims
-/

/-- C1: for every N ≥ 1, the backoff delay computed for the Nth
scheduled reconnect attempt — scheduled while the counter still
records the N-1 prior failures — is `min(1000 * 2^(N-1), 30000)` ms;
in particular the delays for attempts 1, 5, 6 and 100 evaluate to
1000, 16000, 30000 and 30000 (the counter values 0, 4, 5 and 99). -/
theorem backoff_delay_formula (N : Nat) (hN : 1 ≤ N) (s : Supervisor)
    (hs : s.state.reconnectAttempts = N - 1) :
    backoffDelay (N - 1) = min (1000 * 2 ^ (N - 1)) 30000 ∧
    (N - 1 < MAX_RECONNECT_ATTEMPTS →
      (scheduleReconnect s).scheduledDelay = some (min (1000 * 2 ^ (N - 1)) 30000)) ∧
    backoffDelay 0 = 1000 ∧ backoffDelay 4 = 16000 ∧ backoffDelay 5 = 30000 ∧
    backoffDelay 99 = 30000 := by
  refine ⟨rfl, ?_, by decide, by decide, by decide, by decide⟩
  intro hlt
  rcases scheduleReconnect_spec s with ⟨hge, _, _, _⟩ | ⟨_, _, _, hd, _⟩
  · omega
  · rw [hd, hs]
    rfl

/-- Witness for C1 at N = 5: a counter of four prior failures yields a
16-second delay. -/
theorem backoff_delay_formula_witness :
    (scheduleReconnect demoAttempts4).scheduledDelay = some 16000 := by
  have h := (backoff_delay_formula 5 (by decide) demoAttempts4 (by decide)).2.1 (by decide)
  exact h.trans (by decide)

/-- C2: in every reachable state, `Connected` implies no `lastError`
and a zero counter; and every successful `connect()` ends `Connected`
with the counter reset to 0 and the error cleared, whatever their
prior values. -/
theorem connected_state_clean (s : Supervisor) (hr : Reachable s)
    (ms : List String) (lat now : Nat) :
    (s.state.status = ConnectionStatus.connected →
      s.state.lastError = none ∧ s.state.reconnectAttempts = 0) ∧
    ((connect s (ConnectOutcome.success ms lat now)).sup.state.status =
        ConnectionStatus.connected ∧
     (connect s (ConnectOutcome.success ms lat now)).sup.state.reconnectAttempts = 0 ∧
     (connect s (ConnectOutcome.success ms lat now)).sup.state.lastError = none) :=
  ⟨reachable_connInv s hr, rfl, rfl, rfl⟩

/-- Witness for C2 at the state reached by one successful connect. -/
theorem connected_state_clean_witness :
    ((demoConnected.state.status = ConnectionStatus.connected →
      demoConnected.state.lastError = none ∧ demoConnected.state.reconnectAttempts = 0) ∧
    ((connect demoConnected (ConnectOutcome.success ["a"] 3 7)).sup.state.status =
        ConnectionStatus.connected ∧
     (connect demoConnected (ConnectOutcome.success ["a"] 3 7)).sup.state.reconnectAttempts = 0 ∧
     (connect demoConnected (ConnectOutcome.success ["a"] 3 7)).sup.state.lastError = none)) :=
  connected_state_clean demoConnected
    (Reachable.next _ _ (Reachable.init "http://localhost:11434")) ["a"] 3 7

/-- C5: in every reachable state at most one reconnect timer is
pending — scheduling and explicit `reconnect()` cancel the previously
tracked timer before creating a new one, so timers never accumulate. -/
theorem single_pending_timer (s : Supervisor) (hr : Reachable s) :
    s.pendingTimers.length ≤ 1 := by
  rcases reachable_timerInv s hr with h | ⟨hd, dd, _, hpt⟩
  · simp [h]
  · simp [hpt]

/-- Witness for C5 after an initial failed connect (one timer live). -/
theorem single_pending_timer_witness :
    (step (initialSupervisor "http://localhost:11434")
      (Event.connectCall (ConnectOutcome.fetchFailed "ECONNREFUSED"))).pendingTimers.length ≤ 1 :=
  single_pending_timer _ (Reachable.next _ _ (Reachable.init "http://localhost:11434"))

/-- C6 (code bug): the source resets `reconnectAttempts` to 0 in the
same `this.state` reassignment that precedes the
`if (this.state.reconnectAttempts > 0)` test, so the one-time
"reconnected" notification is never shown — even on a success that
follows prior reconnect attempts, where the spec (and the source's own
comment) say it must appear. -/
theorem reconnected_notice_never_shown (s : Supervisor) (ms : List String) (lat now : Nat)
    (hprior : 0 < s.state.reconnectAttempts) :
    (connect s (ConnectOutcome.success ms lat now)).reconnectedNotice = false ∧
    (connect s (ConnectOutcome.success ms lat now)).ok = true ∧
    (connect s (ConnectOutcome.success ms lat now)).sup.state.status =
      ConnectionStatus.connected :=
  ⟨rfl, rfl, rfl⟩

/-- Witness for C6: a success after four failed attempts still shows
no notification. -/
theorem reconnected_notice_never_shown_witness :
    (connect demoAttempts4 (ConnectOutcome.success ["llama3"] 5 0)).reconnectedNotice = false ∧
    (connect demoAttempts4 (ConnectOutcome.success ["llama3"] 5 0)).ok = true :=
  ⟨(reconnected_notice_never_shown demoAttempts4 ["llama3"] 5 0 (by decide)).1,
   (reconnected_notice_never_shown demoAttempts4 ["llama3"] 5 0 (by decide)).2.1⟩

/-- C3: `switchModel` fails fast — no network request, a user-visible
error, an unchanged supervisor — when not `Connected` or when the name
is not in `availableModels`; a failed validation request reports the
error and leaves `currentModel` unchanged; and only a successful call
sets `currentModel` and fires the model-changed notification. -/
theorem switchModel_validation (s : Supervisor) (name : String) (o : SwitchOutcome) :
    ((s.state.status ≠ ConnectionStatus.connected ∨ name ∉ s.state.availableModels) →
      (switchModel s name o).networkCalled = false ∧
      (switchModel s name o).ok = false ∧
      (switchModel s name o).errorShown = true ∧
      (switchModel s name o).sup = s) ∧
    (∀ msg, o = SwitchOutcome.failed msg →
      (switchModel s name o).ok = false ∧
      (switchModel s name o).errorShown = true ∧
      (switchModel s name o).sup.state.currentModel = s.state.currentModel ∧
      (switchModel s name o).modelEvents = []) ∧
    ((switchModel s name o).ok = true →
      (switchModel s name o).sup.state.currentModel = some name ∧
      (switchModel s name o).modelEvents = [name] ∧
      s.state.status = ConnectionStatus.connected ∧
      name ∈ s.state.availableModels ∧ o = SwitchOutcome.ok) ∧
    ((switchModel s name o).ok = false →
      (switchModel s name o).sup.state.currentModel = s.state.currentModel ∧
      (switchModel s name o).modelEvents = []) := by
  unfold switchModel
  by_cases h1 : s.state.status = ConnectionStatus.connected
  · by_cases h2 : name ∈ s.state.availableModels
    · cases o <;> simp [h1, h2]
    · simp [h1, h2]
  · simp [h1]

/-- Witness for C3: a name outside the model list is rejected without
a network call and without touching `currentModel`. -/
theorem switchModel_validation_witness :
    (switchModel demoConnected "gemma" SwitchOutcome.ok).networkCalled = false ∧
    (switchModel demoConnected "gemma" SwitchOutcome.ok).ok = false ∧
    (switchModel demoConnected "gemma" SwitchOutcome.ok).errorShown = true ∧
    (switchModel demoConnected "gemma" SwitchOutcome.ok).sup = demoConnected :=
  (switchModel_validation demoConnected "gemma" SwitchOutcome.ok).1 (Or.inr (by decide))

/-- C4: with the counter at the ceiling of 10, no pending timer and a
`Disconnected` status, no automatic event schedules another reconnect
timer or moves the status: health ticks are no-ops, there is no timer
left to fire, and `scheduleReconnect` only shows the prompt; the
explicit retries (`Retry` choice or `reconnect()`) reset the counter
to 0 and re-enter `Starting`. -/
theorem ceiling_halts_auto_reconnect (s : Supervisor)
    (hceil : s.state.reconnectAttempts ≥ MAX_RECONNECT_ATTEMPTS)
    (hnt : s.pendingTimers = [])
    (hst : s.state.status = ConnectionStatus.disconnected) :
    (∀ o, (healthCheckTick s o).sup = s ∧ (healthCheckTick s o).scheduledDelay = none) ∧
    (∀ id o, (timerFire s id o).sup = s ∧ (timerFire s id o).scheduledDelay = none) ∧
    ((scheduleReconnect s).sup = s ∧ (scheduleReconnect s).scheduledDelay = none ∧
      (scheduleReconnect s).ceilingPrompt = true) ∧
    (∀ o, (retryChoice s o).events.head? =
      some { s.state with
              status := ConnectionStatus.starting
              lastError := none
              reconnectAttempts := 0 }) ∧
    (∀ o, (reconnect s o).events.head? =
      some { s.state with
              status := ConnectionStatus.starting
              lastError := none
              reconnectAttempts := 0 }) := by
  refine ⟨?_, ?_, ?_, ?_, ?_⟩
  · intro o
    constructor <;> simp [healthCheckTick, hst]
  · intro id o
    constructor <;> simp [timerFire, hnt]
  · refine ⟨?_, ?_, ?_⟩ <;> simp [scheduleReconnect, hceil]
  · intro o
    exact connect_first_event _ o
  · intro o
    show (connect (clearReconnectTimer
      { s with state := { s.state with reconnectAttempts := 0 } }) o).events.head? = _
    rw [connect_first_event]
    simp

/-- Witness for C4 at a ceiling state. -/
theorem ceiling_halts_auto_reconnect_witness :
    (healthCheckTick demoCeiling (HealthOutcome.fail "down")).sup = demoCeiling ∧
    (scheduleReconnect demoCeiling).scheduledDelay = none ∧
    (retryChoice demoCeiling (ConnectOutcome.fetchFailed "down")).events.head? =
      some { demoCeiling.state with
              status := ConnectionStatus.starting
              lastError := none
              reconnectAttempts := 0 } := by
  have h := ceiling_halts_auto_reconnect demoCeiling (by decide) rfl rfl
  exact ⟨(h.1 (HealthOutcome.fail "down")).1, h.2.2.1.2.1,
    h.2.2.2.1 (ConnectOutcome.fetchFailed "down")⟩

/-- C8: a failed health probe while `Connected` fires a `Disconnected`
status event carrying `lastError = 'Connection lost'` and schedules a
reconnect (delay 1000 ms, the counter being 0 while connected), while
`currentModel`, `availableModels` and `lastSuccessfulConnection` keep
their values. -/
theorem health_failure_disconnects (s : Supervisor) (hr : Reachable s)
    (hc : s.state.status = ConnectionStatus.connected) (msg : String) :
    (healthCheckTick s (HealthOutcome.fail msg)).events.head? =
      some { s.state with status := ConnectionStatus.disconnected
                          lastError := some "Connection lost" } ∧
    (healthCheckTick s (HealthOutcome.fail msg)).scheduledDelay = some 1000 ∧
    (healthCheckTick s (HealthOutcome.fail msg)).sup.state.currentModel =
      s.state.currentModel ∧
    (healthCheckTick s (HealthOutcome.fail msg)).sup.state.availableModels =
      s.state.availableModels ∧
    (healthCheckTick s (HealthOutcome.fail msg)).sup.state.lastSuccessfulConnection =
      s.state.lastSuccessfulConnection := by
  have hatt : s.state.reconnectAttempts = 0 := (reachable_connInv s hr hc).2
  unfold healthCheckTick
  rw [if_pos hc]
  refine ⟨rfl, ?_, ?_, ?_, ?_⟩
  · exact scheduleReconnect_delay_of_zero _ hatt
  · exact (scheduleReconnect_frame _).1
  · exact (scheduleReconnect_frame _).2.1
  · exact (scheduleReconnect_frame _).2.2.1

/-- Witness for C8 at the reachable state after one successful
connect. -/
theorem health_failure_disconnects_witness :
    (healthCheckTick demoConnected (HealthOutcome.fail "ETIMEDOUT")).events.head? =
      some { demoConnected.state with status := ConnectionStatus.disconnected
                                      lastError := some "Connection lost" } ∧
    (healthCheckTick demoConnected (HealthOutcome.fail "ETIMEDOUT")).scheduledDelay =
      some 1000 ∧
    (healthCheckTick demoConnected (HealthOutcome.fail "ETIMEDOUT")).sup.state.currentModel =
      demoConnected.state.currentModel ∧
    (healthCheckTick demoConnected (HealthOutcome.fail "ETIMEDOUT")).sup.state.availableModels =
      demoConnected.state.availableModels ∧
    (healthCheckTick demoConnected
        (HealthOutcome.fail "ETIMEDOUT")).sup.state.lastSuccessfulConnection =
      demoConnected.state.lastSuccessfulConnection :=
  health_failure_disconnects demoConnected
    (Reachable.next _ _ (Reachable.init "http://localhost:11434")) rfl "ETIMEDOUT"

/-- The models a step's embedded `connect()` succeeded with, if the
event is a connect entry point whose outcome was a success. -/
def connectModelsOf : Event → Option (List String)
  | Event.connectCall (ConnectOutcome.success ms _ _) => some ms
  | Event.timerFired _ (ConnectOutcome.success ms _ _) => some ms
  | Event.reconnectCall (ConnectOutcome.success ms _ _) => some ms
  | Event.updateEndpointCall _ (ConnectOutcome.success ms _ _) => some ms
  | Event.retryChoiceMade (ConnectOutcome.success ms _ _) => some ms
  | _ => none

/-- `connect` rewrites `availableModels` only on its success path. -/
lemma connect_availableModels (s : Supervisor) (o : ConnectOutcome) :
    (connect s o).sup.state.availableModels =
      (match o with
       | ConnectOutcome.success ms _ _ => ms
       | _ => s.state.availableModels) := by
  cases o with
  | startFailed => exact (scheduleReconnect_frame _).2.1
  | fetchFailed msg => exact (scheduleReconnect_frame _).2.1
  | success ms lat now => rfl

/-- C10: `availableModels` is written only by the success path of
`connect()` — every step either leaves it unchanged or is a connect
entry point whose successful `/api/tags` fetch supplied exactly the
stored list; in particular health ticks, `switchModel`,
`scheduleReconnect` and the non-success paths of `reconnect` and
`updateEndpoint` never touch it. -/
theorem availableModels_only_connect_success (s : Supervisor) (e : Event) :
    (step s e).state.availableModels = s.state.availableModels ∨
    connectModelsOf e = some ((step s e).state.availableModels) := by
  cases e with
  | connectCall o =>
    cases o with
    | startFailed => exact Or.inl (connect_availableModels s ConnectOutcome.startFailed)
    | fetchFailed msg => exact Or.inl (connect_availableModels s (ConnectOutcome.fetchFailed msg))
    | success ms lat now => exact Or.inr rfl
  | timerFired id o =>
    show (timerFire s id o).sup.state.availableModels = _ ∨
      _ = some ((timerFire s id o).sup.state.availableModels)
    unfold timerFire
    split
    · cases o with
      | startFailed => exact Or.inl (connect_availableModels _ ConnectOutcome.startFailed)
      | fetchFailed msg => exact Or.inl (connect_availableModels _ (ConnectOutcome.fetchFailed msg))
      | success ms lat now => exact Or.inr rfl
    · exact Or.inl rfl
  | healthTick o =>
    left
    show (healthCheckTick s o).sup.state.availableModels = _
    unfold healthCheckTick
    split
    · cases o with
      | ok lat => rfl
      | fail msg => exact (scheduleReconnect_frame _).2.1
    · rfl
  | switchModelCall n o =>
    exact Or.inl (switchModel_preserves s n o).2.2.2.1
  | reconnectCall o =>
    show (reconnect s o).sup.state.availableModels = _ ∨
      _ = some ((reconnect s o).sup.state.availableModels)
    unfold reconnect
    cases o with
    | startFailed =>
      left
      rw [connect_availableModels]
      simp
    | fetchFailed msg =>
      left
      rw [connect_availableModels]
      simp
    | success ms lat now => exact Or.inr rfl
  | updateEndpointCall u o =>
    show (updateEndpoint s u o).sup.state.availableModels = _ ∨
      _ = some ((updateEndpoint s u o).sup.state.availableModels)
    unfold updateEndpoint reconnect
    cases o with
    | startFailed =>
      left
      rw [connect_availableModels]
      simp
    | fetchFailed msg =>
      left
      rw [connect_availableModels]
      simp
    | success ms lat now => exact Or.inr rfl
  | retryChoiceMade o =>
    cases o with
    | startFailed => exact Or.inl (connect_availableModels _ ConnectOutcome.startFailed)
    | fetchFailed msg => exact Or.inl (connect_availableModels _ (ConnectOutcome.fetchFailed msg))
    | success ms lat now => exact Or.inr rfl

/-- C9 counterexample: against the claimed observable sequence
`Starting, Disconnected(attempt=1), Disconnected(attempt=2), ...`, the
second status event of the unreachable-endpoint run is `Disconnected`
with `reconnectAttempts = 0` (the event fires before the increment),
and the third is `Reconnecting` — not a `Disconnected` event at all. -/
theorem unreachable_trace_cex :
    ((runTrace (initialSupervisor "http://localhost:11434") unreachableScenario).2.1.map
        proj)[1]? = some (ConnectionStatus.disconnected, 0) ∧
    ((runTrace (initialSupervisor "http://localhost:11434") unreachableScenario).2.1.map
        proj)[2]? = some (ConnectionStatus.reconnecting, 1) ∧
    (ConnectionStatus.disconnected, 0) ≠ ((ConnectionStatus.disconnected, 1) : ConnectionStatus × Nat) ∧
    ConnectionStatus.reconnecting ≠ ConnectionStatus.disconnected := by
  decide

/-- C9 as amended: with the endpoint unreachable from startup, each
round fires `Starting` and `Disconnected` carrying the pre-increment
counter and then `Reconnecting` carrying the incremented attempt
number, with scheduled delays `min(1000 * 2^(N-1), 30000)` for attempts
N = 1..10; when the tenth timer fires the run ends with
`Starting, Disconnected` at counter 10, no further timer is scheduled,
the supervisor stays `Disconnected`, and health ticks leave it
untouched. -/
theorem unreachable_trace :
    (runTrace (initialSupervisor "http://localhost:11434") unreachableScenario).2.1.map proj =
      [(ConnectionStatus.starting, 0), (ConnectionStatus.disconnected, 0),
       (ConnectionStatus.reconnecting, 1),
       (ConnectionStatus.starting, 1), (ConnectionStatus.disconnected, 1),
       (ConnectionStatus.reconnecting, 2),
       (ConnectionStatus.starting, 2), (ConnectionStatus.disconnected, 2),
       (ConnectionStatus.reconnecting, 3),
       (ConnectionStatus.starting, 3), (ConnectionStatus.disconnected, 3),
       (ConnectionStatus.reconnecting, 4),
       (ConnectionStatus.starting, 4), (ConnectionStatus.disconnected, 4),
       (ConnectionStatus.reconnecting, 5),
       (ConnectionStatus.starting, 5), (ConnectionStatus.disconnected, 5),
       (ConnectionStatus.reconnecting, 6),
       (ConnectionStatus.starting, 6), (ConnectionStatus.disconnected, 6),
       (ConnectionStatus.reconnecting, 7),
       (ConnectionStatus.starting, 7), (ConnectionStatus.disconnected, 7),
       (ConnectionStatus.reconnecting, 8),
       (ConnectionStatus.starting, 8), (ConnectionStatus.disconnected, 8),
       (ConnectionStatus.reconnecting, 9),
       (ConnectionStatus.starting, 9), (ConnectionStatus.disconnected, 9),
       (ConnectionStatus.reconnecting, 10),
       (ConnectionStatus.starting, 10), (ConnectionStatus.disconnected, 10)] ∧
    (runTrace (initialSupervisor "http://localhost:11434") unreachableScenario).2.2 =
      [1000, 2000, 4000, 8000, 16000, 30000, 30000, 30000, 30000, 30000] ∧
    (runTrace (initialSupervisor "http://localhost:11434") unreachableScenario).1.state.status =
      ConnectionStatus.disconnected ∧
    (runTrace (initialSupervisor "http://localhost:11434")
        unreachableScenario).1.state.reconnectAttempts = 10 ∧
    (runTrace (initialSupervisor "http://localhost:11434") unreachableScenario).1.pendingTimers =
      [] ∧
    (∀ o, (healthCheckTick
        (runTrace (initialSupervisor "http://localhost:11434") unreachableScenario).1 o).sup =
      (runTrace (initialSupervisor "http://localhost:11434") unreachableScenario).1) := by
  refine ⟨by decide, by decide, by decide, by decide, by decide, ?_⟩
  intro o
  have hst : (runTrace (initialSupervisor "http://localhost:11434")
      unreachableScenario).1.state.status = ConnectionStatus.disconnected := by decide
  simp [healthCheckTick, hst]

/-- C7 counterexample: `getState()` is the spread `{ ...this.state }`,
so the snapshot's `availableModels` field is the same array reference
as the supervisor's; an observer pushing onto the array reached
through the snapshot changes what the supervisor itself reads. -/
theorem getState_aliasing_cex :
    readModels
        (pushModel [["llama3"]]
          (getState { status := ConnectionStatus.connected
                      lastError := none
                      reconnectAttempts := 0
                      currentModel := none
                      availableModels := 0 }).availableModels "mutant")
        0 ≠
      readModels [["llama3"]] 0 := by
  decide

/-- C7 as amended: `getState()` returns a shallow copy — the record's
own field values are copied, so the snapshot equals the state record
field for field, but the `availableModels` field is the shared array
reference, and a push through the snapshot's reference is visible when
the supervisor dereferences its own field. -/
theorem getState_shallow_copy (st : JSConnectionState) (h : ModelHeap) (m : String)
    (href : st.availableModels < h.length) :
    getState st = st ∧
    (getState st).availableModels = st.availableModels ∧
    readModels (pushModel h (getState st).availableModels m) st.availableModels =
      readModels h st.availableModels ++ [m] := by
  refine ⟨rfl, rfl, ?_⟩
  show readModels (pushModel h st.availableModels m) st.availableModels = _
  rw [readModels, List.getD_eq_getElem?_getD, pushModel,
    List.getElem?_set_eq_of_lt _ href]
  rfl

/-- Witness for C7's amended statement on a one-cell heap. -/
theorem getState_shallow_copy_witness :
    getState { status := ConnectionStatus.connected
               lastError := none
               reconnectAttempts := 0
               currentModel := none
               availableModels := 0 } =
      { status := ConnectionStatus.connected
        lastError := none
        reconnectAttempts := 0
        currentModel := none
        availableModels := 0 } ∧
    readModels
        (pushModel [["llama3"]]
          (getState { status := ConnectionStatus.connected
                      lastError := none
                      reconnectAttempts := 0
                      currentModel := none
                      availableModels := 0 }).availableModels "mutant")
        0 =
      readModels [["llama3"]] 0 ++ ["mutant"] := by
  have h := getState_shallow_copy
    { status := ConnectionStatus.connected
      lastError := none
      reconnectAttempts := 0
      currentModel := none
      availableModels := 0 } [["llama3"]] "mutant" (by decide)
  exact ⟨h.1, h.2.2⟩

end Ollama
